import Mathlib

/-!
Verification development for the AudioRecordKit C SDK
(`src/AudioRecordKit/Sources/CAPI/AudioRecordSDK.h`).

The repository ships only the public C header: enumerations, callback
signatures and function declarations.  The enumerated types below are
embedded directly from that header.  The behaviour of the control surface
(the session state machine, duration accounting, callback emission,
process-list accessors) is not present under `src/`, so it is modelled
from the specification, as marked on each definition.
-/

/-- Recording mode, from `AudioRecordMode` in AudioRecordSDK.h
(Microphone = 0, SystemAudio = 1, SpecificProcess = 2, Mixed = 3). -/
inductive AudioRecordMode where
  | Microphone
  | SystemAudio
  | SpecificProcess
  | Mixed
deriving DecidableEq, Repr

/-- Audio container format, from `AudioFormat` in AudioRecordSDK.h
(M4A = 0, WAV = 1, CAF = 2). -/
inductive AudioFormat where
  | M4A
  | WAV
  | CAF
deriving DecidableEq, Repr

/-- Session state, from `AudioRecordState` in AudioRecordSDK.h
(Idle = 0, Preparing = 1, Recording = 2, Stopping = 3, Paused = 4). -/
inductive AudioRecordState where
  | Idle
  | Preparing
  | Recording
  | Stopping
  | Paused
deriving DecidableEq, Repr

/-- Error codes, from `AudioRecordError` in AudioRecordSDK.h. -/
inductive AudioRecordError where
  | None
  | InvalidHandle
  | PermissionDenied
  | AlreadyRecording
  | NotRecording
  | DeviceError
  | FileError
  | UnsupportedMode
  | SystemVersionTooLow
  | Unknown
deriving DecidableEq, Repr

/-- Numeric value of each error code as declared in the header
(None = 0, InvalidHandle = -1, ..., Unknown = -99). -/
def AudioRecordError.code : AudioRecordError → Int
  | .None => 0
  | .InvalidHandle => -1
  | .PermissionDenied => -2
  | .AlreadyRecording => -3
  | .NotRecording => -4
  | .DeviceError => -5
  | .FileError => -6
  | .UnsupportedMode => -7
  | .SystemVersionTooLow => -8
  | .Unknown => -99

/-- Permission status, from `AudioPermissionStatus` in AudioRecordSDK.h
(NotDetermined = 0, Granted = 1, Denied = 2, Restricted = 3). -/
inductive AudioPermissionStatus where
  | NotDetermined
  | Granted
  | Denied
  | Restricted
deriving DecidableEq, Repr

/-- Kinds of source capture adapter (spec section 4.2: Microphone,
SystemAudio, ProcessTap variants). -/
inductive AdapterKind where
  | MicrophoneIn
  | SystemAudioLoopback
  | ProcessTapIn
deriving DecidableEq, Repr

/-- Modelled from the spec: the per-handle Session record of section 3
(the implementation behind the opaque `AudioRecordHandle` is not in the
repository).  `pauseStart` is the timestamp at which the current pause
began (meaningful only while `Paused`); `adapters` records which
SourceCaptureAdapters are currently registered for the session. -/
structure Session where
  state : AudioRecordState
  mode : AudioRecordMode
  format : AudioFormat
  sampleRate : Int
  outputDirectory : String
  targetProcessId : Option Int
  filePath : String
  startTimestamp : Nat
  accumulatedPausedDuration : Nat
  pauseStart : Nat
  adapters : List AdapterKind
deriving DecidableEq, Repr

/-- Modelled from the spec: ambient host state the core consults —
the PermissionRecord cache (section 3), the host OS version (header:
macOS 14.4+ needed for process tap), and the current ProcessRegistry
snapshot of audio-capable pids (section 4.7). -/
structure Env where
  microphone : AudioPermissionStatus
  screenCapture : AudioPermissionStatus
  osMajor : Nat
  osMinor : Nat
  processPids : List Int
deriving DecidableEq, Repr

/-- Callback invocations observable by the caller, from the callback
typedefs `AudioStateCallback`, `AudioCompleteCallback` and
`AudioLevelCallback` in AudioRecordSDK.h. -/
inductive Event where
  | stateChanged (st : AudioRecordState)
  | completed (filePath : String) (durationMs : Nat)
  | level (value : Rat)
deriving DecidableEq, Repr

/-- Result of one control call or internal transition: the new session,
the returned `AudioRecordError`, and the callbacks fired. -/
structure StepResult where
  session : Session
  err : AudioRecordError
  events : List Event
deriving DecidableEq, Repr

/-- Modelled from the spec: whether the host platform meets a minimum
(major, minor) version. -/
def versionAtLeast (maj min reqMaj reqMin : Nat) : Bool :=
  reqMaj < maj || (maj == reqMaj && reqMin ≤ min)

/-- Modelled from the spec: process-tap capture requires macOS 14.4+
(header: "macOS 14.4+ (进程音频录制 / Process Tap)"). -/
def processTapAvailable (env : Env) : Bool :=
  versionAtLeast env.osMajor env.osMinor 14 4

/-- Modelled from the spec: which modes require the process-tap OS
facility (glossary: a tap captures the audio of one target process). -/
def requiresProcessTap : AudioRecordMode → Bool
  | .SpecificProcess => true
  | _ => false

/-- Modelled from the spec (section 4.6): the permission scopes a mode
needs — microphone scope for microphone capture, screen-capture scope
for system audio and process taps, both for Mixed — all granted. -/
def requiredPermissionsGranted (env : Env) (mode : AudioRecordMode) : Bool :=
  match mode with
  | .Microphone => env.microphone == .Granted
  | .SystemAudio => env.screenCapture == .Granted
  | .SpecificProcess => env.screenCapture == .Granted
  | .Mixed => env.microphone == .Granted && env.screenCapture == .Granted

/-- Modelled from the spec: `AudioRecord_IsModeSupported` — a mode is
supported unless it needs a process tap the host version lacks. -/
def AudioRecord_IsModeSupported (env : Env) (mode : AudioRecordMode) : Bool :=
  !requiresProcessTap mode || processTapAvailable env

/-- Modelled from the spec: the SourceCaptureAdapters instantiated for a
mode (section 4.2; `Mixed` instantiates Microphone and SystemAudio). -/
def adaptersFor : AudioRecordMode → List AdapterKind
  | .Microphone => [.MicrophoneIn]
  | .SystemAudio => [.SystemAudioLoopback]
  | .SpecificProcess => [.ProcessTapIn]
  | .Mixed => [.MicrophoneIn, .SystemAudioLoopback]

/-- File extension for each container format. -/
def formatExt : AudioFormat → String
  | .M4A => ".m4a"
  | .WAV => ".wav"
  | .CAF => ".caf"

/-- Modelled from the spec (section 4.5): the EncoderSink opened at
`Preparing` yields the output file path; filename generation is an
implementation detail, unique per session (here: derived from the start
timestamp). -/
def mkFilePath (dir : String) (fmt : AudioFormat) (now : Nat) : String :=
  dir ++ "/recording_" ++ toString now ++ formatExt fmt

/-- Modelled from the spec (section 4.1): `GetDuration` returns
wall-clock elapsed since `startTimestamp` minus
`accumulatedPausedDuration`, 0 when `Idle` (and before the
`Preparing → Recording` transition sets `startTimestamp`); while
`Paused` the ongoing pause since `pauseStart` also counts as paused
time, freezing the value. -/
def AudioRecord_GetDuration (s : Session) (now : Nat) : Nat :=
  match s.state with
  | .Idle => 0
  | .Preparing => 0
  | .Paused =>
      (now - s.startTimestamp) - (s.accumulatedPausedDuration + (now - s.pauseStart))
  | _ => (now - s.startTimestamp) - s.accumulatedPausedDuration

/-- Modelled from the spec: shared validation of `AudioRecord_Start` and
`AudioRecord_StartWithProcess` (section 4.1, `Idle → Preparing`): not
already active, permissions for the mode granted (else
`PermissionDenied`), process-tap modes need the minimum host version
(else `SystemVersionTooLow`), and a requested target pid must be in the
ProcessRegistry snapshot (else `DeviceError`, section 8).  On success
the session enters `Preparing`, the EncoderSink is opened and the
mode's capture adapters are registered. -/
def startCall (env : Env) (now : Nat) (mode : AudioRecordMode)
    (pidOpt : Option Int) (s : Session) : StepResult :=
  if s.state ≠ .Idle then
    ⟨s, .AlreadyRecording, []⟩
  else if ¬ requiredPermissionsGranted env mode then
    ⟨s, .PermissionDenied, []⟩
  else if requiresProcessTap mode ∧ ¬ processTapAvailable env then
    ⟨s, .SystemVersionTooLow, []⟩
  else if pidOpt.any (fun pid => decide (pid ∉ env.processPids)) then
    ⟨s, .DeviceError, []⟩
  else
    ⟨{ s with
        state := .Preparing
        mode := mode
        targetProcessId := pidOpt
        filePath := mkFilePath s.outputDirectory s.format now
        startTimestamp := now
        accumulatedPausedDuration := 0
        pauseStart := now
        adapters := adaptersFor mode },
      .None, [.stateChanged .Preparing]⟩

/-- Modelled from the spec: `AudioRecord_Start`. -/
def AudioRecord_Start (env : Env) (now : Nat) (mode : AudioRecordMode)
    (s : Session) : StepResult :=
  startCall env now mode none s

/-- Modelled from the spec: `AudioRecord_StartWithProcess` — starts
`SpecificProcess` mode targeting `pid`. -/
def AudioRecord_StartWithProcess (env : Env) (now : Nat) (pid : Int)
    (s : Session) : StepResult :=
  startCall env now .SpecificProcess (some pid) s

/-- Modelled from the spec (section 4.1, `Preparing → Recording`): once
all required adapters report ready the session starts recording and
`startTimestamp` is set.  Not a control call; no error is reported. -/
def adaptersReadyTransition (now : Nat) (s : Session) : StepResult :=
  if s.state = .Preparing then
    ⟨{ s with
        state := .Recording
        startTimestamp := now
        accumulatedPausedDuration := 0 },
      .None, [.stateChanged .Recording]⟩
  else ⟨s, .None, []⟩

/-- Modelled from the spec: `AudioRecord_Stop` (section 4.1,
`Recording|Paused → Stopping → Idle`): flush and finalize, emit the
Complete event with the final path and duration, then reset to `Idle`;
any other state fails with `NotRecording` and changes nothing. -/
def AudioRecord_Stop (now : Nat) (s : Session) : StepResult :=
  if s.state = .Recording ∨ s.state = .Paused then
    ⟨{ s with state := .Idle, targetProcessId := none, adapters := [] },
      .None,
      [.stateChanged .Stopping,
       .completed s.filePath (AudioRecord_GetDuration s now),
       .stateChanged .Idle]⟩
  else ⟨s, .NotRecording, []⟩

/-- Modelled from the spec: `AudioRecord_Pause` (section 4.1,
`Recording → Paused`): suspends capture and begins tracking
`accumulatedPausedDuration`; in any other state fails with
`NotRecording` and changes nothing. -/
def AudioRecord_Pause (now : Nat) (s : Session) : StepResult :=
  if s.state = .Recording then
    ⟨{ s with state := .Paused, pauseStart := now }, .None,
      [.stateChanged .Paused]⟩
  else ⟨s, .NotRecording, []⟩

/-- Modelled from the spec: `AudioRecord_Resume` (section 4.1,
`Paused → Recording`): folds the finished pause into
`accumulatedPausedDuration`; in any other state fails with
`NotRecording` and changes nothing. -/
def AudioRecord_Resume (now : Nat) (s : Session) : StepResult :=
  if s.state = .Paused then
    ⟨{ s with
        state := .Recording
        accumulatedPausedDuration :=
          s.accumulatedPausedDuration + (now - s.pauseStart) },
      .None, [.stateChanged .Recording]⟩
  else ⟨s, .NotRecording, []⟩

/-- Modelled from the spec: `AudioRecord_IsRecording` (header: returns
true when recording is in progress). -/
def AudioRecord_IsRecording (s : Session) : Bool :=
  s.state == .Recording

/-- Modelled from the spec: `AudioRecord_GetState`. -/
def AudioRecord_GetState (s : Session) : AudioRecordState :=
  s.state

/-- Modelled from the spec: `AudioRecord_SetFormat` — configuration is
only legal while `Idle` (section 6); in any other state the call
returns an error and applies nothing. -/
def AudioRecord_SetFormat (s : Session) (fmt : AudioFormat) :
    Session × AudioRecordError :=
  if s.state = .Idle then ({ s with format := fmt }, .None)
  else (s, .AlreadyRecording)

/-- Modelled from the spec: `AudioRecord_SetSampleRate` — only legal
while `Idle`. -/
def AudioRecord_SetSampleRate (s : Session) (rate : Int) :
    Session × AudioRecordError :=
  if s.state = .Idle then ({ s with sampleRate := rate }, .None)
  else (s, .AlreadyRecording)

/-- Modelled from the spec: `AudioRecord_SetOutputDirectory` — only
legal while `Idle`. -/
def AudioRecord_SetOutputDirectory (s : Session) (dir : String) :
    Session × AudioRecordError :=
  if s.state = .Idle then ({ s with outputDirectory := dir }, .None)
  else (s, .AlreadyRecording)

/-- Modelled from the spec (section 4.4): peak absolute sample of a PCM
buffer window (16-bit samples). -/
def peakAbs (buf : List Int) : Nat :=
  buf.foldr (fun x m => max x.natAbs m) 0

/-- Modelled from the spec (section 4.4): the LevelMeter computes a
normalized amplitude in [0, 1] per mixed buffer window using the peak
of the window (16-bit full scale 32768, clamped). -/
def computeLevel (buf : List Int) : Rat :=
  min 1 ((peakAbs buf : Rat) / 32768)

/-- Modelled from the spec (sections 4.4 and 8): delivery of one mixed
buffer window.  While `Recording` the LevelMeter fires the level
callback with the window's normalized amplitude; while `Paused` or
`Idle` (or any other state) no level callback fires. -/
def levelTick (buf : List Int) (s : Session) : StepResult :=
  if s.state = .Recording then
    ⟨s, .None, [.level (computeLevel buf)]⟩
  else ⟨s, .None, []⟩

/-- One session action: a control call, an internal readiness
transition, or delivery of a mixed buffer window. -/
inductive Act where
  | start (mode : AudioRecordMode)
  | startWithProcess (pid : Int)
  | stop
  | pause
  | resume
  | adaptersReady
  | tick (buf : List Int)
deriving DecidableEq, Repr

/-- Modelled from the spec: dispatch of one action on a session. -/
def step (env : Env) (now : Nat) (act : Act) (s : Session) : StepResult :=
  match act with
  | .start mode => AudioRecord_Start env now mode s
  | .startWithProcess pid => AudioRecord_StartWithProcess env now pid s
  | .stop => AudioRecord_Stop now s
  | .pause => AudioRecord_Pause now s
  | .resume => AudioRecord_Resume now s
  | .adaptersReady => adaptersReadyTransition now s
  | .tick buf => levelTick buf s

/-- The state-callback notifications among a list of events. -/
def stateEvents (evs : List Event) : List AudioRecordState :=
  evs.filterMap fun e =>
    match e with
    | .stateChanged st => some st
    | _ => none

/-- The Complete-callback invocations among a list of events, as
(filePath, durationMs) pairs. -/
def completeEvents (evs : List Event) : List (String × Nat) :=
  evs.filterMap fun e =>
    match e with
    | .completed p d => some (p, d)
    | _ => none

/-- The level-callback values among a list of events. -/
def levelEvents (evs : List Event) : List Rat :=
  evs.filterMap fun e =>
    match e with
    | .level v => some v
    | _ => none

/-- A fresh session bound to a newly created handle: `Idle`, default
configuration (spec section 3: a handle with no active Session behaves
as `Idle`). -/
def initialSession (dir : String) : Session :=
  { state := .Idle
    mode := .Microphone
    format := .M4A
    sampleRate := 48000
    outputDirectory := dir
    targetProcessId := none
    filePath := ""
    startTimestamp := 0
    accumulatedPausedDuration := 0
    pauseStart := 0
    adapters := [] }

/-- A sample environment: all permissions granted, macOS 14.4, two
audio-capable processes. -/
def envAllGranted : Env :=
  { microphone := .Granted
    screenCapture := .Granted
    osMajor := 14
    osMinor := 4
    processPids := [100, 200] }

/-- A sample session that is currently recording. -/
def busySession : Session :=
  { initialSession "/out" with
      state := .Recording
      filePath := "/out/recording_7.m4a"
      startTimestamp := 7
      adapters := [.MicrophoneIn] }

/-- Process descriptor, from `AudioProcessInfo` in AudioRecordSDK.h. -/
structure AudioProcessInfo where
  pid : Int
  name : String
  bundleID : String
  path : String
deriving DecidableEq, Repr

/-- Modelled from the spec (section 4.7): the pool of process-list
snapshots behind the opaque `AudioProcessListHandle` values.  A handle
is an index into the pool; a released or never-allocated slot holds
`none`. -/
abbrev ProcessListPool := List (Option (List AudioProcessInfo))

/-- The snapshot a process-list handle refers to, if the handle is
valid and not yet released. -/
def processListAt (pool : ProcessListPool) (h : Nat) :
    Option (List AudioProcessInfo) :=
  match pool.get? h with
  | some entry => entry
  | none => none

/-- Modelled from the spec: `AudioRecord_GetProcessListCount` — 0 for
an invalid or released handle. -/
def AudioRecord_GetProcessListCount (pool : ProcessListPool) (h : Nat) : Int :=
  match processListAt pool h with
  | some l => l.length
  | none => 0

/-- The descriptor at `index` of the list behind handle `h`, if the
handle is valid and unreleased and the index is in range. -/
def processAt (pool : ProcessListPool) (h : Nat) (index : Int) :
    Option AudioProcessInfo :=
  match processListAt pool h with
  | some l => if index < 0 then none else l[index.toNat]?
  | none => none

/-- Modelled from the spec: `AudioRecord_GetProcessPID` — the pid at
`index`, or -1 on failure (header: "失败返回 -1"). -/
def AudioRecord_GetProcessPID (pool : ProcessListPool) (h : Nat)
    (index : Int) : Int :=
  match processAt pool h index with
  | some p => p.pid
  | none => -1

/-- Modelled from the spec: `AudioRecord_GetProcessName` — the name at
`index`, or NULL (`none`) on failure. -/
def AudioRecord_GetProcessName (pool : ProcessListPool) (h : Nat)
    (index : Int) : Option String :=
  (processAt pool h index).map (fun p => p.name)

/-- Modelled from the spec: `AudioRecord_GetProcessBundleID` — the
bundle identifier at `index`, or NULL (`none`) on failure. -/
def AudioRecord_GetProcessBundleID (pool : ProcessListPool) (h : Nat)
    (index : Int) : Option String :=
  (processAt pool h index).map (fun p => p.bundleID)

/-- Modelled from the spec: `AudioRecord_FreeProcessList` — releases
the snapshot behind `h`; releasing an already-released or invalid
handle is a safe no-op. -/
def AudioRecord_FreeProcessList (pool : ProcessListPool) (h : Nat) :
    ProcessListPool :=
  pool.set h none

/-- The two permission scopes of the PermissionGate (spec section 4.6):
microphone and screen capture. -/
inductive PermissionScope where
  | microphoneScope
  | screenCaptureScope
deriving DecidableEq, Repr

/-- Modelled from the spec (section 4.6): the scopes each mode needs. -/
def scopesFor : AudioRecordMode → List PermissionScope
  | .Microphone => [.microphoneScope]
  | .SystemAudio => [.screenCaptureScope]
  | .SpecificProcess => [.screenCaptureScope]
  | .Mixed => [.microphoneScope, .screenCaptureScope]

/-- The cached status of one permission scope. -/
def scopeStatus (env : Env) : PermissionScope → AudioPermissionStatus
  | .microphoneScope => env.microphone
  | .screenCaptureScope => env.screenCapture

/-- A sample environment in which the microphone scope is denied. -/
def envMicDenied : Env :=
  { envAllGranted with microphone := .Denied }

/-- A sample environment on an old host (macOS 13.0) with the
screen-capture scope denied. -/
def envScreenDeniedOld : Env :=
  { microphone := .Granted
    screenCapture := .Denied
    osMajor := 13
    osMinor := 0
    processPids := [100] }

/-- A sample process-list pool: handle 0 holds a one-element snapshot,
handle 1 has already been released. -/
def samplePool : ProcessListPool :=
  [some [{ pid := 100, name := "MusicApp", bundleID := "com.example.music",
           path := "/Applications/MusicApp.app" }],
   none]

/-- A required scope in a non-Granted status means the mode's
permission check fails. -/
theorem requiredPermissionsGranted_eq_false_of_scope (env : Env)
    (mode : AudioRecordMode) (sc : PermissionScope)
    (hsc : sc ∈ scopesFor mode) (hst : scopeStatus env sc ≠ .Granted) :
    requiredPermissionsGranted env mode = false := by
  cases mode <;> cases sc <;>
    simp_all [scopesFor, scopeStatus, requiredPermissionsGranted]

/-- The level meter's output is always within [0, 1]. -/
theorem computeLevel_mem_unit (buf : List Int) :
    0 ≤ computeLevel buf ∧ computeLevel buf ≤ 1 := by
  constructor
  · exact le_min (by norm_num)
      (div_nonneg (by positivity) (by norm_num))
  · exact min_le_left _ _

/-- C1: any control call (Start, StartWithProcess, Stop, Pause, Resume)
issued in a state where it is not a legal transition of the session
state machine returns AlreadyRecording (for the start calls) or
NotRecording (for Stop, Pause, Resume) and leaves the session
completely unchanged, firing no callbacks. -/
theorem c1_invalid_state_calls_rejected (env : Env) (now : Nat)
    (s : Session) :
    (∀ mode, s.state ≠ .Idle →
      AudioRecord_Start env now mode s = ⟨s, .AlreadyRecording, []⟩) ∧
    (∀ pid, s.state ≠ .Idle →
      AudioRecord_StartWithProcess env now pid s =
        ⟨s, .AlreadyRecording, []⟩) ∧
    (s.state ≠ .Recording → s.state ≠ .Paused →
      AudioRecord_Stop now s = ⟨s, .NotRecording, []⟩) ∧
    (s.state ≠ .Recording →
      AudioRecord_Pause now s = ⟨s, .NotRecording, []⟩) ∧
    (s.state ≠ .Paused →
      AudioRecord_Resume now s = ⟨s, .NotRecording, []⟩) := by
  refine ⟨?_, ?_, ?_, ?_, ?_⟩ <;> intros <;>
    simp_all [AudioRecord_Start, AudioRecord_StartWithProcess, startCall,
      AudioRecord_Stop, AudioRecord_Pause, AudioRecord_Resume]

/-- C1 witness: Stop while Idle returns NotRecording and changes
nothing; Start while Recording returns AlreadyRecording. -/
theorem c1_invalid_state_calls_rejected_witness :
    AudioRecord_Stop 3 (initialSession "/tmp") =
      ⟨initialSession "/tmp", .NotRecording, []⟩ ∧
    AudioRecord_Start envAllGranted 3 .Microphone busySession =
      ⟨busySession, .AlreadyRecording, []⟩ :=
  ⟨(c1_invalid_state_calls_rejected envAllGranted 3
      (initialSession "/tmp")).2.2.1 (by decide) (by decide),
   (c1_invalid_state_calls_rejected envAllGranted 3 busySession).1
      .Microphone (by decide)⟩

/-- C7: the configuration setters SetFormat, SetSampleRate and
SetOutputDirectory, invoked in any state other than Idle, return an
error code immediately and leave the session — in particular its
format, sampleRate and outputDirectory — completely unchanged. -/
theorem c7_setters_idle_only (s : Session) (fmt : AudioFormat)
    (rate : Int) (dir : String) (h : s.state ≠ .Idle) :
    AudioRecord_SetFormat s fmt = (s, .AlreadyRecording) ∧
    AudioRecord_SetSampleRate s rate = (s, .AlreadyRecording) ∧
    AudioRecord_SetOutputDirectory s dir = (s, .AlreadyRecording) ∧
    (AudioRecord_SetFormat s fmt).2 ≠ .None ∧
    (AudioRecord_SetSampleRate s rate).2 ≠ .None ∧
    (AudioRecord_SetOutputDirectory s dir).2 ≠ .None := by
  simp_all [AudioRecord_SetFormat, AudioRecord_SetSampleRate,
    AudioRecord_SetOutputDirectory]

/-- C7 witness: rejected setters on a recording session. -/
theorem c7_setters_idle_only_witness :
    AudioRecord_SetFormat busySession .WAV =
      (busySession, .AlreadyRecording) ∧
    AudioRecord_SetSampleRate busySession 44100 =
      (busySession, .AlreadyRecording) ∧
    AudioRecord_SetOutputDirectory busySession "/elsewhere" =
      (busySession, .AlreadyRecording) :=
  have h := c7_setters_idle_only busySession .WAV 44100 "/elsewhere"
    (by decide)
  ⟨h.1, h.2.1, h.2.2.1⟩

/-- C10: IsRecording returns true exactly when GetState returns
Recording, and returns false in every other state (Idle, Preparing,
Stopping, Paused). -/
theorem c10_isRecording_iff_recording (s : Session) :
    (AudioRecord_IsRecording s = true ↔
      AudioRecord_GetState s = .Recording) ∧
    (AudioRecord_GetState s ≠ .Recording →
      AudioRecord_IsRecording s = false) := by
  constructor
  · simp [AudioRecord_IsRecording, AudioRecord_GetState]
  · intro h
    simp_all [AudioRecord_IsRecording, AudioRecord_GetState]

/-- C10 witness: a recording session reports true, an idle one false. -/
theorem c10_isRecording_iff_recording_witness :
    AudioRecord_IsRecording busySession = true ∧
    AudioRecord_IsRecording (initialSession "/tmp") = false :=
  ⟨(c10_isRecording_iff_recording busySession).1.mpr (by decide),
   (c10_isRecording_iff_recording (initialSession "/tmp")).2 (by decide)⟩

/-- C2: over a run Start (at t0) → adapters ready (at t1) → Pause (at
tp) → Resume (at tr), GetDuration is 0 in Idle at any time, 0
immediately after a successful Start, equal to wall-clock elapsed since
startTimestamp minus accumulatedPausedDuration and non-decreasing while
Recording, frozen at its pause-time value during Paused, and after
Resume equals the value at pause time plus the recording time since
resume, so paused intervals are excluded. -/
theorem c2_duration_accounting (env : Env) (s0 : Session)
    (t0 t1 tp tr t t' u : Nat)
    (hIdle : s0.state = .Idle)
    (hperm : requiredPermissionsGranted env .Microphone = true)
    (h1p : t1 ≤ tp) (hpr : tp ≤ tr) (hrt : tr ≤ t) (htt : t ≤ t') :
    AudioRecord_GetDuration s0 u = 0 ∧
    AudioRecord_GetDuration
      (AudioRecord_Start env t0 .Microphone s0).session u = 0 ∧
    (adaptersReadyTransition t1
      (AudioRecord_Start env t0 .Microphone s0).session).session.state =
      .Recording ∧
    AudioRecord_GetDuration
      (adaptersReadyTransition t1
        (AudioRecord_Start env t0 .Microphone s0).session).session t1 = 0 ∧
    AudioRecord_GetDuration
      (adaptersReadyTransition t1
        (AudioRecord_Start env t0 .Microphone s0).session).session t =
      t - t1 ∧
    AudioRecord_GetDuration
      (adaptersReadyTransition t1
        (AudioRecord_Start env t0 .Microphone s0).session).session t ≤
    AudioRecord_GetDuration
      (adaptersReadyTransition t1
        (AudioRecord_Start env t0 .Microphone s0).session).session t' ∧
    AudioRecord_GetDuration
      (AudioRecord_Pause tp
        (adaptersReadyTransition t1
          (AudioRecord_Start env t0 .Microphone s0).session).session).session
      t =
    AudioRecord_GetDuration
      (adaptersReadyTransition t1
        (AudioRecord_Start env t0 .Microphone s0).session).session tp ∧
    AudioRecord_GetDuration
      (AudioRecord_Pause tp
        (adaptersReadyTransition t1
          (AudioRecord_Start env t0 .Microphone s0).session).session).session
      t =
    AudioRecord_GetDuration
      (AudioRecord_Pause tp
        (adaptersReadyTransition t1
          (AudioRecord_Start env t0 .Microphone s0).session).session).session
      t' ∧
    AudioRecord_GetDuration
      (AudioRecord_Resume tr
        (AudioRecord_Pause tp
          (adaptersReadyTransition t1
            (AudioRecord_Start env t0 .Microphone s0).session).session).session).session
      t =
    AudioRecord_GetDuration
      (adaptersReadyTransition t1
        (AudioRecord_Start env t0 .Microphone s0).session).session tp +
      (t - tr) := by
  have hstart : AudioRecord_Start env t0 .Microphone s0 =
      ⟨{ s0 with
          state := .Preparing
          mode := .Microphone
          targetProcessId := none
          filePath := mkFilePath s0.outputDirectory s0.format t0
          startTimestamp := t0
          accumulatedPausedDuration := 0
          pauseStart := t0
          adapters := adaptersFor .Microphone },
        .None, [.stateChanged .Preparing]⟩ := by
    simp [AudioRecord_Start, startCall, hIdle, hperm, requiresProcessTap]
  rw [hstart]
  simp only [adaptersReadyTransition, AudioRecord_Pause, AudioRecord_Resume,
    AudioRecord_GetDuration, hIdle]
  norm_num
  omega

/-- C2 witness: the duration accounting at concrete times
t0 = 2, t1 = 10, tp = 30, tr = 50, t = 70, t' = 90. -/
theorem c2_duration_accounting_witness :
    AudioRecord_GetDuration (initialSession "/tmp") 123 = 0 ∧
    AudioRecord_GetDuration
      (AudioRecord_Start envAllGranted 2 .Microphone
        (initialSession "/tmp")).session 123 = 0 ∧
    AudioRecord_GetDuration
      (adaptersReadyTransition 10
        (AudioRecord_Start envAllGranted 2 .Microphone
          (initialSession "/tmp")).session).session 70 = 60 := by
  have h := c2_duration_accounting envAllGranted (initialSession "/tmp")
    2 10 30 50 70 90 123 (by decide) (by decide)
    (by norm_num) (by norm_num) (by norm_num) (by norm_num)
  refine ⟨h.1, h.2.1, ?_⟩
  have h5 := h.2.2.2.2.1
  omega

/-- C3: a successful run Start(Microphone) at t0, adapters ready at t1,
Stop at t2 > t1 produces exactly one Complete callback, with a
non-empty file path and durationMs strictly greater than 0, and the
state-callback sequence over the run is exactly
Preparing, Recording, Stopping, Idle. -/
theorem c3_end_to_end (env : Env) (s0 : Session) (t0 t1 t2 : Nat)
    (hIdle : s0.state = .Idle)
    (hmic : env.microphone = .Granted)
    (h12 : t1 < t2) :
    (AudioRecord_Start env t0 .Microphone s0).err = .None ∧
    (AudioRecord_Stop t2
      (adaptersReadyTransition t1
        (AudioRecord_Start env t0 .Microphone s0).session).session).err =
      .None ∧
    stateEvents
      ((AudioRecord_Start env t0 .Microphone s0).events ++
       (adaptersReadyTransition t1
         (AudioRecord_Start env t0 .Microphone s0).session).events ++
       (AudioRecord_Stop t2
         (adaptersReadyTransition t1
           (AudioRecord_Start env t0 .Microphone s0).session).session).events) =
      [.Preparing, .Recording, .Stopping, .Idle] ∧
    completeEvents
      ((AudioRecord_Start env t0 .Microphone s0).events ++
       (adaptersReadyTransition t1
         (AudioRecord_Start env t0 .Microphone s0).session).events ++
       (AudioRecord_Stop t2
         (adaptersReadyTransition t1
           (AudioRecord_Start env t0 .Microphone s0).session).session).events) =
      [(mkFilePath s0.outputDirectory s0.format t0, t2 - t1)] ∧
    mkFilePath s0.outputDirectory s0.format t0 ≠ "" ∧
    0 < t2 - t1 := by
  have hperm : requiredPermissionsGranted env .Microphone = true := by
    simp [requiredPermissionsGranted, hmic]
  have hstart : AudioRecord_Start env t0 .Microphone s0 =
      ⟨{ s0 with
          state := .Preparing
          mode := .Microphone
          targetProcessId := none
          filePath := mkFilePath s0.outputDirectory s0.format t0
          startTimestamp := t0
          accumulatedPausedDuration := 0
          pauseStart := t0
          adapters := adaptersFor .Microphone },
        .None, [.stateChanged .Preparing]⟩ := by
    simp [AudioRecord_Start, startCall, hIdle, hperm, requiresProcessTap]
  have hpath : mkFilePath s0.outputDirectory s0.format t0 ≠ "" := by
    have h11 : ("/recording_" : String).length = 11 := rfl
    have hlen : 0 < (mkFilePath s0.outputDirectory s0.format t0).length := by
      unfold mkFilePath
      rw [String.length_append, String.length_append, String.length_append]
      omega
    intro h
    rw [h] at hlen
    simp [String.length_empty] at hlen
  rw [hstart]
  simp only [adaptersReadyTransition, AudioRecord_Stop,
    AudioRecord_GetDuration, stateEvents, completeEvents]
  norm_num [List.filterMap]
  exact ⟨hpath, by omega⟩

/-- C3 witness: the run at t0 = 2, t1 = 10, t2 = 70 from a fresh
session with all permissions granted. -/
theorem c3_end_to_end_witness :
    stateEvents
      ((AudioRecord_Start envAllGranted 2 .Microphone
          (initialSession "/tmp")).events ++
       (adaptersReadyTransition 10
         (AudioRecord_Start envAllGranted 2 .Microphone
           (initialSession "/tmp")).session).events ++
       (AudioRecord_Stop 70
         (adaptersReadyTransition 10
           (AudioRecord_Start envAllGranted 2 .Microphone
             (initialSession "/tmp")).session).session).events) =
      [.Preparing, .Recording, .Stopping, .Idle] ∧
    completeEvents
      ((AudioRecord_Start envAllGranted 2 .Microphone
          (initialSession "/tmp")).events ++
       (adaptersReadyTransition 10
         (AudioRecord_Start envAllGranted 2 .Microphone
           (initialSession "/tmp")).session).events ++
       (AudioRecord_Stop 70
         (adaptersReadyTransition 10
           (AudioRecord_Start envAllGranted 2 .Microphone
             (initialSession "/tmp")).session).session).events) =
      [(mkFilePath "/tmp" .M4A 2, 60)] :=
  have h := c3_end_to_end envAllGranted (initialSession "/tmp") 2 10 70
    (by decide) (by decide) (by norm_num)
  ⟨h.2.2.1, h.2.2.2.1⟩

/-- C9: every value delivered to the level callback by any action lies
in the closed interval [0, 1], and delivery of a mixed buffer window
while the session is Paused or Idle fires no level callback at all. -/
theorem c9_level_callback (env : Env) (now : Nat) (act : Act)
    (s : Session) (v : Rat) (buf : List Int) :
    (Event.level v ∈ (step env now act s).events → 0 ≤ v ∧ v ≤ 1) ∧
    (s.state = .Paused ∨ s.state = .Idle →
      levelEvents ((step env now act s).events) = []) ∧
    (s.state = .Paused ∨ s.state = .Idle →
      (levelTick buf s).events = []) := by
  refine ⟨?_, ?_, ?_⟩
  · intro hmem
    cases act <;>
      simp only [step, AudioRecord_Start, AudioRecord_StartWithProcess,
        startCall, AudioRecord_Stop, AudioRecord_Pause, AudioRecord_Resume,
        adaptersReadyTransition, levelTick] at hmem <;>
      split_ifs at hmem <;>
      simp_all [computeLevel_mem_unit]
  · intro h
    have hne : s.state ≠ .Recording := by
      rcases h with h | h <;> simp [h]
    cases act <;>
      simp only [step, AudioRecord_Start, AudioRecord_StartWithProcess,
        startCall, AudioRecord_Stop, AudioRecord_Pause, AudioRecord_Resume,
        adaptersReadyTransition, levelTick] <;>
      split_ifs <;>
      simp_all [levelEvents]
  · intro h
    have hne : s.state ≠ .Recording := by
      rcases h with h | h <;> simp [h]
    simp [levelTick, hne]

/-- C9 witness: a concrete tick while Recording delivers a level in
[0, 1]; a tick on a paused session delivers nothing. -/
theorem c9_level_callback_witness :
    (0 ≤ computeLevel [12000, -20000] ∧ computeLevel [12000, -20000] ≤ 1) ∧
    (levelTick [12000, -20000]
      { busySession with state := .Paused }).events = [] :=
  ⟨(c9_level_callback envAllGranted 0 (.tick [12000, -20000]) busySession
      (computeLevel [12000, -20000]) []).1
    (by simp [step, levelTick, busySession, initialSession]),
   (c9_level_callback envAllGranted 0 .stop
      { busySession with state := .Paused }
      0 [12000, -20000]).2.2 (Or.inl rfl)⟩

/-- C4 counterexample: with the microphone scope Denied but the session
already Recording, Start(Microphone) returns AlreadyRecording, not
PermissionDenied, so the claim as stated fails outside Idle. -/
theorem c4_counterexample :
    scopeStatus envMicDenied .microphoneScope = .Denied ∧
    PermissionScope.microphoneScope ∈ scopesFor .Microphone ∧
    (AudioRecord_Start envMicDenied 9 .Microphone busySession).err =
      .AlreadyRecording ∧
    (AudioRecord_Start envMicDenied 9 .Microphone busySession).err ≠
      .PermissionDenied := by
  refine ⟨rfl, by decide, ?_, ?_⟩ <;>
    simp [AudioRecord_Start, startCall, busySession, initialSession]

/-- C4 amended: if a permission scope required by the requested mode is
Denied or Restricted then Start/StartWithProcess leaves the session
unchanged — so it never transitions into Preparing — and, when issued
while Idle, fails with PermissionDenied (issued in any other state it
fails with AlreadyRecording before permissions are consulted). -/
theorem c4_permission_gate (env : Env) (now : Nat)
    (mode : AudioRecordMode) (pid : Int) (s : Session)
    (sc : PermissionScope) (hsc : sc ∈ scopesFor mode)
    (hst : scopeStatus env sc = .Denied ∨ scopeStatus env sc = .Restricted) :
    (AudioRecord_Start env now mode s).session = s ∧
    (s.state = .Idle →
      AudioRecord_Start env now mode s = ⟨s, .PermissionDenied, []⟩) ∧
    (∀ sc', sc' ∈ scopesFor .SpecificProcess →
      (scopeStatus env sc' = .Denied ∨ scopeStatus env sc' = .Restricted) →
      (AudioRecord_StartWithProcess env now pid s).session = s ∧
      (s.state = .Idle →
        AudioRecord_StartWithProcess env now pid s =
          ⟨s, .PermissionDenied, []⟩)) := by
  have hperm : requiredPermissionsGranted env mode = false :=
    requiredPermissionsGranted_eq_false_of_scope env mode sc hsc
      (by rcases hst with h | h <;> simp [h])
  by_cases hs : s.state = .Idle
  · refine ⟨?_, ?_, ?_⟩
    · simp [AudioRecord_Start, startCall, hs, hperm]
    · intro _
      simp [AudioRecord_Start, startCall, hs, hperm]
    · intro sc' hsc' hst'
      have hperm' : requiredPermissionsGranted env .SpecificProcess = false :=
        requiredPermissionsGranted_eq_false_of_scope env _ sc' hsc'
          (by rcases hst' with h | h <;> simp [h])
      constructor <;>
        simp [AudioRecord_StartWithProcess, startCall, hs, hperm']
  · refine ⟨?_, fun h => absurd h hs, ?_⟩
    · simp [AudioRecord_Start, startCall, hs]
    · intro sc' hsc' hst'
      exact ⟨by simp [AudioRecord_StartWithProcess, startCall, hs],
        fun h => absurd h hs⟩

/-- C4 amended witness: with microphone Denied, Start(Microphone) from
Idle fails with PermissionDenied and changes nothing. -/
theorem c4_permission_gate_witness :
    AudioRecord_Start envMicDenied 9 .Microphone (initialSession "/tmp") =
      ⟨initialSession "/tmp", .PermissionDenied, []⟩ :=
  (c4_permission_gate envMicDenied 9 .Microphone 100
    (initialSession "/tmp") .microphoneScope (by decide)
    (Or.inl rfl)).2.1 (by decide)

/-- C5 counterexample: with the screen-capture scope Denied on a macOS
13.0 host (below the process-tap minimum 14.4), StartWithProcess from
Idle returns PermissionDenied, not SystemVersionTooLow, so the claim as
stated fails when a required permission is missing. -/
theorem c5_counterexample :
    requiresProcessTap .SpecificProcess = true ∧
    processTapAvailable envScreenDeniedOld = false ∧
    (AudioRecord_StartWithProcess envScreenDeniedOld 4 100
      (initialSession "/cap")).err = .PermissionDenied ∧
    (AudioRecord_StartWithProcess envScreenDeniedOld 4 100
      (initialSession "/cap")).err ≠ .SystemVersionTooLow := by
  refine ⟨rfl, rfl, ?_, ?_⟩ <;>
    simp [AudioRecord_StartWithProcess, startCall, envScreenDeniedOld,
      requiredPermissionsGranted, initialSession]

/-- C5 amended: from Idle with the mode's permissions granted, starting
any process-tap-requiring mode on a host below the minimum version
returns SystemVersionTooLow and leaves the session — in particular its
registered capture adapters — completely unchanged, and the mode is
reported unsupported; not-Idle or permission-missing requests are
rejected earlier, likewise without any state change. -/
theorem c5_version_gate (env : Env) (now : Nat)
    (mode : AudioRecordMode) (pid : Int) (s : Session)
    (hIdle : s.state = .Idle)
    (htap : requiresProcessTap mode = true)
    (hperm : requiredPermissionsGranted env mode = true)
    (hver : processTapAvailable env = false) :
    AudioRecord_Start env now mode s = ⟨s, .SystemVersionTooLow, []⟩ ∧
    (requiredPermissionsGranted env .SpecificProcess = true →
      AudioRecord_StartWithProcess env now pid s =
        ⟨s, .SystemVersionTooLow, []⟩) ∧
    AudioRecord_IsModeSupported env mode = false := by
  refine ⟨?_, fun hp => ?_, ?_⟩
  · simp [AudioRecord_Start, startCall, hIdle, hperm, htap, hver]
  · simp [AudioRecord_StartWithProcess, startCall, hIdle, hp, hver,
      requiresProcessTap]
  · simp [AudioRecord_IsModeSupported, htap, hver]

/-- C5 amended witness: SpecificProcess on a macOS 13.0 host with the
screen-capture scope granted fails with SystemVersionTooLow and leaves
the idle session untouched. -/
theorem c5_version_gate_witness :
    AudioRecord_StartWithProcess
      { envScreenDeniedOld with screenCapture := .Granted } 4 100
      (initialSession "/cap") =
      ⟨initialSession "/cap", .SystemVersionTooLow, []⟩ :=
  (c5_version_gate { envScreenDeniedOld with screenCapture := .Granted }
    4 .SpecificProcess 100 (initialSession "/cap")
    (by decide) rfl (by decide) rfl).2.1 (by decide)

/-- C6 counterexample: with pid 999 absent from the registry snapshot
but the session already Recording, StartWithProcess returns
AlreadyRecording, not DeviceError, so the claim as stated fails outside
Idle. -/
theorem c6_counterexample :
    (999 : Int) ∉ envAllGranted.processPids ∧
    (AudioRecord_StartWithProcess envAllGranted 9 999 busySession).err =
      .AlreadyRecording ∧
    (AudioRecord_StartWithProcess envAllGranted 9 999 busySession).err ≠
      .DeviceError := by
  refine ⟨by decide, ?_, ?_⟩ <;>
    simp [AudioRecord_StartWithProcess, startCall, busySession,
      initialSession]

/-- C6 amended: from Idle, with the required permission granted and the
host version sufficient, StartWithProcess for a pid not present in the
current ProcessRegistry snapshot fails with the defined error
DeviceError and leaves the session in its prior state; in any other
prior state the call fails with AlreadyRecording, likewise without
state change. -/
theorem c6_unknown_pid_rejected (env : Env) (now : Nat) (pid : Int)
    (s : Session)
    (hperm : requiredPermissionsGranted env .SpecificProcess = true)
    (hver : processTapAvailable env = true)
    (hpid : pid ∉ env.processPids) :
    (s.state = .Idle →
      AudioRecord_StartWithProcess env now pid s =
        ⟨s, .DeviceError, []⟩) ∧
    (s.state ≠ .Idle →
      AudioRecord_StartWithProcess env now pid s =
        ⟨s, .AlreadyRecording, []⟩) := by
  constructor <;> intro hs <;>
    simp [AudioRecord_StartWithProcess, startCall, hs, hperm, hver, hpid]

/-- C6 amended witness: pid 999 is not in the snapshot, so starting it
from a fresh idle session fails with DeviceError and changes nothing. -/
theorem c6_unknown_pid_rejected_witness :
    AudioRecord_StartWithProcess envAllGranted 9 999
      (initialSession "/tmp") =
      ⟨initialSession "/tmp", .DeviceError, []⟩ :=
  (c6_unknown_pid_rejected envAllGranted 9 999 (initialSession "/tmp")
    rfl rfl (by decide)).1 (by decide)

/-- C8: dereferencing an index at or beyond the snapshot's count, or
any index through a released or invalid process-list handle, yields the
defined failure values (-1 for the pid, NULL for name and bundle id);
an out-of-range handle behaves as released; and releasing the same
handle twice is the same as releasing it once, leaving the slot
released. -/
theorem c8_process_list_safety (pool : ProcessListPool) (h : Nat)
    (index : Int) :
    (AudioRecord_GetProcessListCount pool h ≤ index →
      AudioRecord_GetProcessPID pool h index = -1 ∧
      AudioRecord_GetProcessName pool h index = none ∧
      AudioRecord_GetProcessBundleID pool h index = none) ∧
    (processListAt pool h = none →
      AudioRecord_GetProcessPID pool h index = -1 ∧
      AudioRecord_GetProcessName pool h index = none ∧
      AudioRecord_GetProcessBundleID pool h index = none) ∧
    (pool.length ≤ h → processListAt pool h = none) ∧
    AudioRecord_FreeProcessList (AudioRecord_FreeProcessList pool h) h =
      AudioRecord_FreeProcessList pool h ∧
    processListAt (AudioRecord_FreeProcessList pool h) h = none := by
  refine ⟨?_, ?_, ?_, ?_, ?_⟩
  · intro hge
    rcases hl : processListAt pool h with _ | l
    · simp [AudioRecord_GetProcessPID, AudioRecord_GetProcessName,
        AudioRecord_GetProcessBundleID, processAt, hl]
    · have hcount : AudioRecord_GetProcessListCount pool h = l.length := by
        simp [AudioRecord_GetProcessListCount, hl]
      rw [hcount] at hge
      have hnone : l[index.toNat]? = none := by
        apply List.getElem?_eq_none
        omega
      have hnot : ¬ index < 0 := by omega
      simp [AudioRecord_GetProcessPID, AudioRecord_GetProcessName,
        AudioRecord_GetProcessBundleID, processAt, hl, hnot, hnone]
  · intro hl
    simp [AudioRecord_GetProcessPID, AudioRecord_GetProcessName,
      AudioRecord_GetProcessBundleID, processAt, hl]
  · intro hlen
    have hnone : pool[h]? = none := List.getElem?_eq_none hlen
    simp [processListAt, hnone]
  · simp [AudioRecord_FreeProcessList, List.set_set]
  · by_cases hlt : h < pool.length
    · have hset : (pool.set h none)[h]? = some none :=
        List.getElem?_set_eq_of_lt none hlt
      simp [processListAt, AudioRecord_FreeProcessList, hset]
    · have hset : (pool.set h none)[h]? = none := by
        apply List.getElem?_eq_none
        simp only [List.length_set]
        omega
      simp [processListAt, AudioRecord_FreeProcessList, hset]

/-- C8 witness: index 5 of the one-element snapshot behind handle 0
fails with -1/NULL; the released handle 1 fails the same way; a double
release of handle 0 equals a single release. -/
theorem c8_process_list_safety_witness :
    AudioRecord_GetProcessPID samplePool 0 5 = -1 ∧
    AudioRecord_GetProcessName samplePool 0 5 = none ∧
    AudioRecord_GetProcessPID samplePool 1 0 = -1 ∧
    AudioRecord_GetProcessBundleID samplePool 1 0 = none ∧
    AudioRecord_FreeProcessList (AudioRecord_FreeProcessList samplePool 0) 0 =
      AudioRecord_FreeProcessList samplePool 0 :=
  have h0 := c8_process_list_safety samplePool 0 5
  have h1 := c8_process_list_safety samplePool 1 0
  have ha := h0.1 (by decide)
  have hb := h1.2.1 (by decide)
  ⟨ha.1, ha.2.1, hb.1, hb.2.2, h0.2.2.2.1⟩
